import Mathlib

/-!
Verification of `script.js` (US mass-shootings map): a shallow embedding of
the data model (parsed incident records), the `parseCSV` row parser, the
radius scale, and the `updateMap` enter/update/exit rendering step, with
theorems about filtering, reconciliation, idempotence, edge cases, tooltip
handlers and the radius scale.

Modelling conventions:
* JavaScript numbers produced by the script's coercions are either NaN or an
  exact value; they are embedded as `JSNum` over `ℚ` (exactness is what every
  claim here needs; the script performs no arithmetic whose rounding could
  matter to the claims).
* d3 transitions are modelled at their settled end state: a circle's cx/cy/r
  attributes are always the projection and radius of its currently bound
  datum, so the rendered state only stores each circle's DOM identity, its
  bound datum and its tooltip binding.
* `new Date(string)` is platform library code; it is modelled on the
  dataset's `M/D/YYYY` date format, with every other string an Invalid Date
  (whose `getFullYear()` is NaN), exactly the distinction the claims use.
-/

/-- A JavaScript number as the script manipulates it: NaN (the result of a
failed numeric coercion, or `getFullYear()` of an Invalid Date) or an exact
numeric value. -/
inductive JSNum where
  | nan : JSNum
  | num : ℚ → JSNum
deriving DecidableEq, Repr

/-- JavaScript equality on numbers, as in the filter `d.year == year` of
`updateMap` (the slider's string is coerced to a number before the numeric
comparison): NaN compares unequal to everything, including itself; numeric
values compare by value. -/
def jsEq : JSNum → JSNum → Bool
  | JSNum.num a, JSNum.num b => decide (a = b)
  | _, _ => false

/-- Numeric value of a list of decimal digit characters. -/
def digitsVal (l : List Char) : ℕ :=
  l.foldl (fun a c => a * 10 + (c.toNat - 48)) 0

/-- Unsigned decimal literal: `digits`, `digits.digits`, `.digits` or
`digits.`; any other character sequence is not a number. -/
def parseUnsigned (cs : List Char) : Option ℚ :=
  let intPart := cs.takeWhile Char.isDigit
  let rest := cs.dropWhile Char.isDigit
  match rest with
  | [] => if intPart.isEmpty then none else some (digitsVal intPart : ℚ)
  | '.' :: frac =>
      if frac.all Char.isDigit && !(intPart.isEmpty && frac.isEmpty) then
        some ((digitsVal intPart : ℚ) + (digitsVal frac : ℚ) / (10 : ℚ) ^ frac.length)
      else none
  | _ => none

/-- Whitespace for the purposes of JavaScript's string trimming. -/
def isJsSpace (c : Char) : Bool :=
  c = ' ' || c = '\t' || c = '\n' || c = '\r'

/-- Leading and trailing whitespace removed. -/
def trimChars (cs : List Char) : List Char :=
  ((cs.dropWhile isJsSpace).reverse.dropWhile isJsSpace).reverse

/-- String-to-number conversion underlying the script's unary `+` on CSV
fields (`+data.Latitude` and friends), modelled for decimal literals: the
trimmed string as an optionally signed decimal number, the empty string as
0, anything else as no number. -/
def strToNum (s : String) : Option ℚ :=
  match trimChars s.toList with
  | [] => some 0
  | '-' :: rest => (parseUnsigned rest).map (fun q => -q)
  | '+' :: rest => parseUnsigned rest
  | cs => parseUnsigned cs

/-- JavaScript unary plus on a string: the numeric value, or NaN when the
string is not numeric (it never throws). -/
def plusCoerce (s : String) : JSNum :=
  match strToNum s with
  | some q => JSNum.num q
  | none => JSNum.nan

/-- The character list split at every slash (the separator of the dataset's
`M/D/YYYY` dates). -/
def splitOnSlash : List Char → List (List Char)
  | [] => [[]]
  | c :: cs =>
      match splitOnSlash cs, decide (c = '/') with
      | r, true => [] :: r
      | [], false => [[c]]
      | h :: t, false => (c :: h) :: t

/-- Result of `new Date(string)` restricted to what the script reads from
it: the calendar year of a well-formed `M/D/YYYY` date (the format of the
dataset's Date column), or `none` for an Invalid Date. -/
def parseDateYear (s : String) : Option ℤ :=
  match splitOnSlash (trimChars s.toList) with
  | [mc, dc, yc] =>
      if !mc.isEmpty && mc.all Char.isDigit && !dc.isEmpty && dc.all Char.isDigit &&
          !yc.isEmpty && yc.all Char.isDigit &&
          decide (1 ≤ digitsVal mc) && decide (digitsVal mc ≤ 12) &&
          decide (1 ≤ digitsVal dc) && decide (digitsVal dc ≤ 31) then
        some (digitsVal yc : ℤ)
      else none
  | _ => none

/-- The script's `d.date.getFullYear()`: the year of a valid date, NaN for
an Invalid Date. -/
def getFullYear : Option ℤ → JSNum
  | some y => JSNum.num (y : ℚ)
  | none => JSNum.nan

/-- A parsed incident record exactly as `parseCSV` builds it: identifier,
location label, coordinates, victim count, parsed date and derived year. -/
structure Incident where
  id : String
  location : String
  latitude : JSNum
  longitude : JSNum
  victims : JSNum
  date : Option ℤ
  year : JSNum
deriving DecidableEq, Repr

/-- One raw CSV row, restricted to the columns `parseCSV` reads (d3.csv
delivers every field as a string).  `TotalVictims` stands for the column
named "Total Number of Victims". -/
structure CSVRow where
  CaseID : String
  Location : String
  Latitude : String
  Longitude : String
  TotalVictims : String
  Date : String
deriving DecidableEq, Repr

/-- The script's `parseCSV` row function: select the columns of interest,
coerce the numeric fields with unary `+`, parse the date and extract its
year.  It is total: a malformed row yields NaN fields, never an exception. -/
def parseCSV (row : CSVRow) : Incident :=
  { id := row.CaseID
    location := row.Location
    latitude := plusCoerce row.Latitude
    longitude := plusCoerce row.Longitude
    victims := plusCoerce row.TotalVictims
    date := parseDateYear row.Date
    year := getFullYear (parseDateYear row.Date) }

/-- The radius scale `d3.scaleSqrt().domain([0,50]).range([0,25])`:
y = 25 · √(v / 50).  The script never calls `.clamp(true)`, and d3 power
scales extrapolate past the declared range by default, so no clamping
appears here. -/
noncomputable def rScale (v : ℝ) : ℝ := 25 * Real.sqrt (v / 50)

/-- One rendered SVG circle.  `elem` is the DOM node's identity (creation
order), `datum` the incident currently bound to it by the data join, and
`hoverText` the location text its tooltip handlers close over (`none`
before any handler is bound).  The circle's cx/cy/r attributes are always
the projection and `rScale` of its current datum, so they are not stored
separately. -/
structure SvgCircle where
  elem : ℕ
  datum : Incident
  hoverText : Option String
deriving DecidableEq, Repr

/-- The rendered map state: the SVG's circles in document order, the next
fresh DOM identity, and the year label's displayed value. -/
structure MapState where
  circles : List SvgCircle
  nextElem : ℕ
  label : JSNum
deriving DecidableEq, Repr

/-- TASK 1 of `updateMap`:
`shootingsData.filter(function(d) { return d.year == year; })`. -/
def visibleSet (allData : List Incident) (year : ℤ) : List Incident :=
  allData.filter (fun d => jsEq d.year (JSNum.num (year : ℚ)))

/-- The script's data join `svg.selectAll("circle").data(yearData)` passes
no key accessor, so d3 joins by index: the i-th existing circle is rebound
in place to the i-th datum (update selection), data beyond the existing
circles enter as freshly appended circles at the end of the document, and
circles beyond the data exit and are removed by `exit().remove()`.
Returns the circles in document order with the next fresh DOM identity. -/
def joinByIndex : List SvgCircle → List Incident → ℕ → List SvgCircle × ℕ
  | _, [], next => ([], next)
  | [], d :: ds, next =>
      let r := joinByIndex [] ds (next + 1)
      ({ elem := next, datum := d, hoverText := none } :: r.1, r.2)
  | c :: cs, d :: ds, next =>
      let r := joinByIndex cs ds next
      ({ elem := c.elem, datum := d, hoverText := c.hoverText } :: r.1, r.2)

/-- TASK 3 of `updateMap`: after the join, the script rebinds the tooltip
handlers on every circle now in the document; each mouseover handler closes
over the circle's bound datum and shows `d.location`. -/
def bindTooltip (cs : List SvgCircle) : List SvgCircle :=
  cs.map (fun c => { c with hoverText := some c.datum.location })

/-- The script's `updateMap(year)`: filter the data to the selected year,
run the (keyless, hence index-based) enter/update/exit join, rebind the
tooltip handlers on all circles, and set the year label.  Transitions are
modelled at their settled end state. -/
def updateMap (allData : List Incident) (year : ℤ) (st : MapState) : MapState :=
  { circles := bindTooltip (joinByIndex st.circles (visibleSet allData year) st.nextElem).1
    nextElem := (joinByIndex st.circles (visibleSet allData year) st.nextElem).2
    label := JSNum.num (year : ℚ) }

/-- The shared tooltip's state: visibility and current text. -/
structure TooltipState where
  visible : Bool
  text : String
deriving DecidableEq, Repr

/-- Firing a circle's mouseover handler.  The script's handler makes the
tooltip visible and sets its text to the hovered incident's location; a
circle with no handler bound leaves the tooltip unchanged. -/
def fireMouseover (c : SvgCircle) (ts : TooltipState) : TooltipState :=
  match c.hoverText with
  | some s => { visible := true, text := s }
  | none => ts

/-- Firing a circle's mouseout handler: the script's handler hides the
tooltip (leaving its text); a circle with no handler bound leaves the
tooltip unchanged. -/
def fireMouseout (c : SvgCircle) (ts : TooltipState) : TooltipState :=
  match c.hoverText with
  | some _ => { ts with visible := false }
  | none => ts

/-- The sort comparator `function(a,b) { return a.year - b.year; }` as a
strict order on numeric years (the dataset the script sorts has numeric
years; a NaN comparator result is not relied on by any claim). -/
def yearLT (a b : Incident) : Bool :=
  match a.year, b.year with
  | JSNum.num x, JSNum.num y => decide (x < y)
  | _, _ => false

/-- Stable insertion for the year sort: `a` goes after every element
strictly before it and before the first element not strictly before it. -/
def insertByYear (a : Incident) : List Incident → List Incident
  | [] => [a]
  | b :: bs => if yearLT b a then b :: insertByYear a bs else a :: b :: bs

/-- The script's `shootingsData.sort(function(a,b) { return a.year - b.year; })`
as a stable insertion sort by ascending year. -/
def sortByYear : List Incident → List Incident
  | [] => []
  | a :: rest => insertByYear a (sortByYear rest)

/-- The slider initialisation
`slider.property("value", shootingsData[shootingsData.length-1].year)`:
the year of the last incident after the ascending sort, i.e. the maximum
year present (NaN stands in for the crash the script would have on an
empty dataset). -/
def initialYearOf (allData : List Incident) : JSNum :=
  match (sortByYear allData).getLast? with
  | some d => d.year
  | none => JSNum.nan

/-- The page state right after the `Promise.all` callback finishes.  The
initial draw (the `svg.selectAll("circle")` block before the sort) binds
EVERY incident of the dataset to a circle, in data order, with no hover
handlers bound; the year label shows the slider's initial (maximum) year.
TASK 4 ("INITIALIZE MAP") is left empty in the script, so no `updateMap`
call runs at load time and this is the state the user first sees. -/
def initialState (allData : List Incident) : MapState :=
  { circles := allData.enum.map (fun p => { elem := p.1, datum := p.2, hoverText := none })
    nextElem := allData.length
    label := initialYearOf allData }

/-- Concrete incident fixture: id "A", year 2015 (the spec's scenario). -/
def incA : Incident :=
  { id := "A", location := "LocA", latitude := JSNum.num 33, longitude := JSNum.num (-86)
    victims := JSNum.num 10, date := some 2015, year := JSNum.num 2015 }

/-- Concrete incident fixture: id "B", year 2016 (the spec's scenario). -/
def incB : Incident :=
  { id := "B", location := "LocB", latitude := JSNum.num 40, longitude := JSNum.num (-74)
    victims := JSNum.num 5, date := some 2016, year := JSNum.num 2016 }

/-- Concrete malformed CSV row: non-numeric coordinates and victim count,
unparseable date. -/
def badRow : CSVRow :=
  { CaseID := "X1", Location := "Somewhere", Latitude := "abc", Longitude := "def"
    TotalVictims := "n/a", Date := "unknown date" }

/-- Whatever the data join starts from, the circles it leaves carry exactly
the joined data, in order: the update selection rebinds the surviving
prefix pointwise, enter appends the remainder, exit removes the excess. -/
theorem joinByIndex_map_datum (olds : List SvgCircle) (data : List Incident) (next : ℕ) :
    (joinByIndex olds data next).1.map (fun c => c.datum) = data := by
  induction data generalizing olds next with
  | nil => cases olds <;> simp [joinByIndex]
  | cons d ds ih => cases olds <;> simp [joinByIndex, ih]

/-- Rebinding tooltip handlers changes no circle's bound datum. -/
theorem bindTooltip_map_datum (cs : List SvgCircle) :
    (bindTooltip cs).map (fun c => c.datum) = cs.map (fun c => c.datum) := by
  simp [bindTooltip]

/-- The circles `updateMap` leaves are bound, in order, to exactly the
incidents of the visible set it computed. -/
theorem updateMap_circles_datum (allData : List Incident) (year : ℤ) (st : MapState) :
    (updateMap allData year st).circles.map (fun c => c.datum) = visibleSet allData year := by
  simp [updateMap, bindTooltip_map_datum, joinByIndex_map_datum]

/-- Joining a circle list against its own bound data is the identity: every
circle is rebound in place to the datum it already holds and nothing enters
or exits. -/
theorem joinByIndex_self (cs : List SvgCircle) (n : ℕ) :
    joinByIndex cs (cs.map (fun c => c.datum)) n = (cs, n) := by
  induction cs with
  | nil => simp [joinByIndex]
  | cons c cs ih => simp [joinByIndex, ih]

/-- Rebinding the tooltip handlers twice equals rebinding them once. -/
theorem bindTooltip_idem (cs : List SvgCircle) :
    bindTooltip (bindTooltip cs) = bindTooltip cs := by
  simp [bindTooltip, List.map_map]

/-- C1: for every year Y, `updateMap(Y)` computes a visible set containing
exactly the incidents of the loaded collection whose year equals Y (year
equality, not range) — the rendered circles are bound to exactly that set,
every member has year == Y, and its size is the count of incidents with
that year in the full collection. -/
theorem updateMap_filters_by_year (allData : List Incident) (year : ℤ) (st : MapState) :
    (updateMap allData year st).circles.map (fun c => c.datum) = visibleSet allData year ∧
    (visibleSet allData year).all (fun d => jsEq d.year (JSNum.num (year : ℚ))) = true ∧
    (visibleSet allData year).length
      = allData.countP (fun d => jsEq d.year (JSNum.num (year : ℚ))) := by
  refine ⟨updateMap_circles_datum allData year st, ?_, ?_⟩
  · simp only [visibleSet, List.all_eq_true]
    intro d hd
    exact (List.mem_filter.mp hd).2
  · simp [visibleSet, List.countP_eq_length_filter]

/-- C3: after any `updateMap(Y)` call settles, the ids of the rendered
circles are exactly the ids of the visible set computed for Y — no extras,
none missing — from every prior rendered state (hence after every sequence
of prior `updateMap` calls). -/
theorem updateMap_ids_match_visible (allData : List Incident) (year : ℤ) (st : MapState) :
    (updateMap allData year st).circles.map (fun c => c.datum.id)
      = (visibleSet allData year).map (fun d => d.id) := by
  have h := congrArg (List.map (fun d : Incident => d.id))
    (updateMap_circles_datum allData year st)
  simpa [List.map_map, Function.comp] using h

/-- C4: `updateMap` is idempotent in final rendered state — for every year
and every starting rendered-shape state, calling it twice in a row leaves
exactly the state one call leaves (same circles, hence same positions and
radii, and same label). -/
theorem updateMap_idempotent (allData : List Incident) (year : ℤ) (st : MapState) :
    updateMap allData year (updateMap allData year st) = updateMap allData year st := by
  have hdat : visibleSet allData year
      = (updateMap allData year st).circles.map (fun c => c.datum) :=
    (updateMap_circles_datum allData year st).symm
  have hjoin : joinByIndex (updateMap allData year st).circles (visibleSet allData year)
      (updateMap allData year st).nextElem
      = ((updateMap allData year st).circles, (updateMap allData year st).nextElem) := by
    rw [hdat]
    exact joinByIndex_self _ _
  have hbind : bindTooltip (updateMap allData year st).circles
      = (updateMap allData year st).circles := by
    show bindTooltip (bindTooltip _) = bindTooltip _
    exact bindTooltip_idem _
  show ({ circles := bindTooltip (joinByIndex (updateMap allData year st).circles
            (visibleSet allData year) (updateMap allData year st).nextElem).1
          nextElem := (joinByIndex (updateMap allData year st).circles
            (visibleSet allData year) (updateMap allData year st).nextElem).2
          label := JSNum.num (year : ℚ) } : MapState)
      = updateMap allData year st
  rw [hjoin, hbind]
  rfl

/-- C8: a year with zero matching incidents (1999, outside any data) is not
an error — the visible set is empty, every previously rendered circle is
removed, and the year label is still updated. -/
theorem updateMap_empty_year (allData : List Incident) (year : ℤ) (st : MapState)
    (h : visibleSet allData year = []) :
    (updateMap allData year st).circles = [] ∧
    (updateMap allData year st).label = JSNum.num (year : ℚ) := by
  constructor
  · have hd := updateMap_circles_datum allData year st
    rw [h] at hd
    exact List.map_eq_nil_iff.mp hd
  · rfl

/-- C8 witness: with one incident in 2015, selecting 1999 leaves no circles
and the label 1999. -/
theorem updateMap_empty_year_witness :
    (updateMap [incA] 1999 (initialState [incA])).circles = [] ∧
    (updateMap [incA] 1999 (initialState [incA])).label = JSNum.num ((1999 : ℤ) : ℚ) :=
  updateMap_empty_year [incA] 1999 (initialState [incA]) (by decide)

/-- C2, the code evaluated at the failing input (reconciliation is NOT
keyed by id): the join passes no key accessor, so moving the slider from
2015 to 2016 rebinds the one existing circle (DOM identity 0, previously
showing incident "A") in place to incident "B".  No circle is created for
the newly visible id "B", and the circle that showed the no-longer-visible
id "A" is not removed — it survives as DOM element 0 with new data —
contrary to id-keyed enter/update/exit reconciliation (which the code's own
TASK 2 comment asks for). -/
theorem updateMap_joins_by_index_not_id :
    (updateMap [incA, incB] 2015 (initialState [incA, incB])).circles.map
        (fun c => (c.elem, c.datum.id)) = [(0, "A")] ∧
    (updateMap [incA, incB] 2016
        (updateMap [incA, incB] 2015 (initialState [incA, incB]))).circles.map
        (fun c => (c.elem, c.datum.id)) = [(0, "B")] := by
  exact ⟨rfl, rfl⟩

/-- C5, the code evaluated at the failing input: TASK 4 ("INITIALIZE MAP")
is empty, so after load — before any slider interaction — the slider and
label do show the maximum year 2016, but the circles still show the ENTIRE
dataset (ids "A" of 2015 and "B" of 2016), not the max-year visible set
(just "B"). -/
theorem initial_draw_shows_all_years :
    (initialState [incA, incB]).label = JSNum.num 2016 ∧
    (initialState [incA, incB]).circles.map (fun c => c.datum.id) = ["A", "B"] ∧
    (visibleSet [incA, incB] 2016).map (fun d => d.id) = ["B"] ∧
    (initialState [incA, incB]).circles.map (fun c => c.datum.id)
      ≠ (visibleSet [incA, incB] 2016).map (fun d => d.id) := by
  refine ⟨rfl, rfl, by decide, by decide⟩

/-- C7: row parsing never raises — it is a total function — and a malformed
row yields NaN sentinels: a non-numeric coordinate or casualty field gives
a NaN field, and an unparseable date gives a NaN year, which `==`-matches
no integer year, so the record never appears in any year-filtered visible
set `updateMap` computes. -/
theorem parseCSV_malformed_row (row : CSVRow)
    (hlat : strToNum row.Latitude = none)
    (hvic : strToNum row.TotalVictims = none)
    (hdate : parseDateYear row.Date = none) :
    (parseCSV row).latitude = JSNum.nan ∧
    (parseCSV row).victims = JSNum.nan ∧
    (parseCSV row).year = JSNum.nan ∧
    ∀ (allData : List Incident) (year : ℤ), parseCSV row ∉ visibleSet allData year := by
  refine ⟨?_, ?_, ?_, ?_⟩
  · simp [parseCSV, plusCoerce, hlat]
  · simp [parseCSV, plusCoerce, hvic]
  · simp [parseCSV, getFullYear, hdate]
  · intro allData year hmem
    have hyear : (parseCSV row).year = JSNum.nan := by
      simp [parseCSV, getFullYear, hdate]
    have hkeep := (List.mem_filter.mp hmem).2
    rw [hyear] at hkeep
    simp [jsEq] at hkeep

/-- C7 witness: the concrete malformed row parses to NaN coordinates,
victims and year, and is excluded from every year's visible set (sampled
at a collection containing it and year 2015). -/
theorem parseCSV_malformed_row_witness :
    (parseCSV badRow).latitude = JSNum.nan ∧
    (parseCSV badRow).victims = JSNum.nan ∧
    (parseCSV badRow).year = JSNum.nan ∧
    ∀ (allData : List Incident) (year : ℤ), parseCSV badRow ∉ visibleSet allData year :=
  parseCSV_malformed_row badRow (by decide) (by decide) (by decide)

/-- C9: after every `updateMap` call returns, every rendered circle has
working hover handlers — firing its mouseover shows the shared tooltip with
that incident's location text, and firing its mouseout hides the tooltip —
from any tooltip state. -/
theorem updateMap_hover_handlers (allData : List Incident) (year : ℤ) (st : MapState) :
    ∀ c ∈ (updateMap allData year st).circles, ∀ ts : TooltipState,
      fireMouseover c ts = { visible := true, text := c.datum.location } ∧
      (fireMouseout c ts).visible = false := by
  intro c hc ts
  have hbound : c.hoverText = some c.datum.location := by
    simp only [updateMap, bindTooltip, List.mem_map] at hc
    obtain ⟨a, _, rfl⟩ := hc
    rfl
  exact ⟨by simp [fireMouseover, hbound], by simp [fireMouseout, hbound]⟩

/-- The one circle rendered after updating the one-incident map to 2015. -/
def circA : SvgCircle := { elem := 0, datum := incA, hoverText := some "LocA" }

/-- C9 witness: the circle rendered for incident A by a concrete
`updateMap` call shows "LocA" on mouseover and hides the tooltip on
mouseout, from the hidden initial tooltip state. -/
theorem updateMap_hover_handlers_witness :
    fireMouseover circA { visible := false, text := "" }
        = { visible := true, text := circA.datum.location } ∧
    (fireMouseout circA { visible := false, text := "" }).visible = false :=
  updateMap_hover_handlers [incA] 2015 (initialState [incA]) circA (by decide)
    { visible := false, text := "" }

/-- C6: the radius scale is the square-root map of the scale with domain
[0, 50] and range [0, 25]: radius 0 is 0, radius 50 is 25, and it is
monotone on the domain. -/
theorem rScale_sqrt_monotone :
    rScale 0 = 0 ∧ rScale 50 = 25 ∧
    ∀ a b : ℝ, 0 ≤ a → a < b → b ≤ 50 → rScale a ≤ rScale b := by
  refine ⟨?_, ?_, ?_⟩
  · simp [rScale]
  · norm_num [rScale, Real.sqrt_one]
  · intro a b _ hab _
    have hdiv : a / 50 ≤ b / 50 := by linarith
    exact mul_le_mul_of_nonneg_left (Real.sqrt_le_sqrt hdiv) (by norm_num)

/-- C6 witness: the endpoint values and monotonicity sampled at counts
10 < 20 inside the domain. -/
theorem rScale_sqrt_monotone_witness :
    rScale 0 = 0 ∧ rScale 50 = 25 ∧ rScale 10 ≤ rScale 20 :=
  ⟨rScale_sqrt_monotone.1, rScale_sqrt_monotone.2.1,
    rScale_sqrt_monotone.2.2 10 20 (by norm_num) (by norm_num) (by norm_num)⟩

/-- C10: for victim counts above the domain maximum 50 the scale
extrapolates rather than clamps — the radius exceeds 25 px and still
follows the square-root formula 25 · √(v / 50). -/
theorem rScale_extrapolates (v : ℝ) (h : 50 < v) :
    25 < rScale v ∧ rScale v = 25 * Real.sqrt (v / 50) := by
  refine ⟨?_, rfl⟩
  have h1 : (1 : ℝ) < v / 50 := by linarith
  have h2 : (1 : ℝ) < Real.sqrt (v / 50) := by
    have := Real.sqrt_lt_sqrt (by norm_num : (0 : ℝ) ≤ 1) h1
    rwa [Real.sqrt_one] at this
  have h3 : 25 * (1 : ℝ) < 25 * Real.sqrt (v / 50) :=
    mul_lt_mul_of_pos_left h2 (by norm_num)
  simpa [rScale] using h3

/-- C10 witness: at 200 victims the radius exceeds 25, following the
square-root formula. -/
theorem rScale_extrapolates_witness :
    25 < rScale 200 ∧ rScale 200 = 25 * Real.sqrt ((200 : ℝ) / 50) :=
  rScale_extrapolates 200 (by norm_num)
